import Mathlib

/-!
Shallow embedding of the medify two-service order workflow.

The repository holds two Python services:
* user-service (src/user-service/app/main.py): owns user records; its
  GET /users/{id} endpoint parses the id as a BSON ObjectId (400 on parse
  failure), looks the user up (404 when absent) and answers 200 with the
  record otherwise.
* order-service (src/order-service/app/main.py): the User Validation Gate
  `_fetch_user` classifies the outcome of the network lookup, and the
  Order Admission Workflow `create_order` validates input, calls the Gate
  and persists the order.

Machine-level conventions of the embedding:
* HTTP statuses are Nat.
* Python floats carry no arithmetic here beyond a positivity check and a
  verbatim copy, so `total` is modelled as Rat.
* The MongoDB order collection is a list of documents in insertion order
  together with a counter handing out the store-assigned `_id`; ObjectId
  generation by the Mongo client is monotone within one process, which the
  counter models.
* A directory (the external User Directory) is a function from the looked
  up identifier to the network-level result of the GET request: either a
  transport failure (httpx.RequestError) or a response with a status and
  a decoded body.
* Timestamps are abstract instants (Nat); `datetime.now` is the `now`
  parameter threaded into the handler.
* Each handler returns, besides its response and the updated store, the
  list of identifiers it looked up in the User Directory, so that
  call-count properties are statable.
-/

/-- User record as served by the user-service (id, name, email). -/
structure User where
  id : String
  name : String
  email : String
deriving DecidableEq

/-- Order line item: SKU string and quantity, from pydantic model OrderItem. -/
structure OrderItem where
  sku : String
  qty : Int
deriving DecidableEq

/-- Request body of POST /orders, from pydantic model OrderCreate. -/
structure OrderCreate where
  user_id : String
  items : List OrderItem
  total : Rat
deriving DecidableEq

/-- Persisted order document (Mongo doc plus its store-assigned id). -/
structure OrderDoc where
  oid : Nat
  user_id : String
  items : List OrderItem
  total : Rat
  created_at : Nat
deriving DecidableEq

/-- Response body of a materialized order, from pydantic model OrderOut. -/
structure OrderOut where
  id : String
  user_id : String
  items : List OrderItem
  total : Rat
  created_at : Nat
deriving DecidableEq

/-- HTTPException payload: status code and detail message. -/
structure HttpError where
  status : Nat
  detail : String
deriving DecidableEq

deriving instance DecidableEq for Except

/-- Pydantic constraints on OrderItem: sku 1 to 64 characters, qty 1 to 1000. -/
def OrderItem.valid (it : OrderItem) : Bool :=
  decide (1 ≤ it.sku.length) && decide (it.sku.length ≤ 64) &&
  decide (1 ≤ it.qty) && decide (it.qty ≤ 1000)

/-- Pydantic constraints on OrderCreate: non-empty user_id, at least one
item, every item valid, total strictly positive. -/
def OrderCreate.valid (p : OrderCreate) : Bool :=
  decide (1 ≤ p.user_id.length) && decide (1 ≤ p.items.length) &&
  p.items.all OrderItem.valid && decide (0 < p.total)

/-- Character class accepted inside a hexadecimal ObjectId string. -/
def isBsonHexDigit (c : Char) : Bool :=
  c.isDigit || (decide ((Char.ofNat 97) ≤ c) && decide (c ≤ (Char.ofNat 102))) ||
  (decide ((Char.ofNat 65) ≤ c) && decide (c ≤ (Char.ofNat 70)))

/-- ObjectId(s) succeeds on a string exactly when it is 24 hex characters;
this is the parse attempted by both services. -/
def isObjectIdString (s : String) : Bool :=
  decide (s.length = 24) && s.toList.all isBsonHexDigit

/-- Embeds get_user of the user-service: 400 when the id does not parse as
an ObjectId, 404 when no user carries it, otherwise 200 with the record. -/
def get_user (users : List User) (user_id : String) : Nat × Option User :=
  if isObjectIdString user_id then
    match users.find? (fun u => u.id == user_id) with
    | none => (404, none)
    | some u => (200, some u)
  else
    (400, none)

/-- Network-level result of a GET /users/{id} request: a transport error
(httpx.RequestError: connection refused, timeout, DNS failure) or a
response carrying a status and a decoded body. -/
inductive NetResult where
  | requestError
  | response (status : Nat) (body : User)
deriving DecidableEq

/-- The deployed User Directory: the network result the user-service
produces for a lookup, given the user collection it holds. -/
def directoryOf (users : List User) (uid : String) : NetResult :=
  NetResult.response (get_user users uid).1 ((get_user users uid).2.getD ⟨"", "", ""⟩)

/-- Outcome of one Gate call: the classified result together with the list
of identifiers sent to the User Directory during the call. -/
structure GateResult where
  res : Except HttpError (Option User)
  calls : List String
deriving DecidableEq

/-- Embeds _fetch_user of the order-service, the User Validation Gate: a
transport failure raises 503, a 404 response answers none, any other
non-200 status raises 502, and a 200 response yields the decoded user.
Exactly one GET request is issued per call: no caching, no retry. -/
def fetch_user (dir : String → NetResult) (uid : String) : GateResult :=
  { res :=
      match dir uid with
      | NetResult.requestError => Except.error ⟨503, "User service unavailable"⟩
      | NetResult.response s b =>
        if s = 404 then Except.ok none
        else if s ≠ 200 then Except.error ⟨502, "User validation failed"⟩
        else Except.ok (some b)
    calls := [uid] }

/-- The Gate invoked twice in sequence against an unchanged directory. -/
def validate_twice (dir : String → NetResult) (uid : String) : GateResult × GateResult :=
  (fetch_user dir uid, fetch_user dir uid)

/-- The order collection: documents in insertion order plus the counter
producing the next store-assigned id. -/
structure OrderStore where
  nextId : Nat
  docs : List OrderDoc
deriving DecidableEq

/-- Mongo find_one on _id: first document carrying the id. -/
def OrderStore.find_one (s : OrderStore) (oid : Nat) : Option OrderDoc :=
  s.docs.find? (fun d => d.oid == oid)

/-- Store well-formedness: every persisted id is below the counter, so a
fresh insert never collides. -/
def OrderStore.wfb (s : OrderStore) : Bool :=
  s.docs.all (fun d => decide (d.oid < s.nextId))

/-- Embeds _serialize_order: the response body built from a stored doc. -/
def serialize_order (d : OrderDoc) : OrderOut :=
  { id := toString d.oid
    user_id := d.user_id
    items := d.items
    total := d.total
    created_at := d.created_at }

/-- Result of one order-service request handler: the response (materialized
order or HTTPException), the order store after the call, and the list of
identifiers looked up in the User Directory during the call. -/
structure HandlerResult where
  res : Except HttpError OrderOut
  store : OrderStore
  calls : List String
deriving DecidableEq

/-- Embeds create_order of the order-service: call the Gate, answer 400
when the user is absent, re-parse the id as an ObjectId (400 on failure),
build the document with the current instant, insert it, read it back by
its assigned id and serialize what was read. A failed read-back would
make _serialize_order crash, surfacing as a 500. -/
def create_order (dir : String → NetResult) (now : Nat) (store : OrderStore)
    (payload : OrderCreate) : HandlerResult :=
  let g := fetch_user dir payload.user_id
  match g.res with
  | Except.error e => ⟨Except.error e, store, g.calls⟩
  | Except.ok none =>
      ⟨Except.error ⟨400, "Cannot create order: user not found"⟩, store, g.calls⟩
  | Except.ok (some _) =>
      if isObjectIdString payload.user_id then
        let doc : OrderDoc :=
          ⟨store.nextId, payload.user_id, payload.items, payload.total, now⟩
        let store2 : OrderStore := ⟨store.nextId + 1, store.docs ++ [doc]⟩
        match store2.find_one doc.oid with
        | some created => ⟨Except.ok (serialize_order created), store2, g.calls⟩
        | none => ⟨Except.error ⟨500, "Internal Server Error"⟩, store2, g.calls⟩
      else
        ⟨Except.error ⟨400, "Invalid user id"⟩, store, g.calls⟩

/-- Embeds the full POST /orders surface: FastAPI validates the request
body against the pydantic model before the endpoint body runs, and a
constraint violation is answered with status 422 (request validation
error) without executing any endpoint code. -/
def post_orders (dir : String → NetResult) (now : Nat) (store : OrderStore)
    (raw : OrderCreate) : HandlerResult :=
  if raw.valid then create_order dir now store raw
  else ⟨Except.error ⟨422, "Unprocessable Entity"⟩, store, []⟩

/-- HTTP status of a POST /orders response: 201 on success (status_code of
the route decorator), the exception status otherwise. -/
def resultStatus : Except HttpError OrderOut → Nat
  | Except.ok _ => 201
  | Except.error e => e.status

/-- Insert into a list kept descending by _id, used to embed the Mongo
descending sort. -/
def insertByIdDesc (d : OrderDoc) : List OrderDoc → List OrderDoc
  | [] => [d]
  | x :: xs => if x.oid ≤ d.oid then d :: x :: xs else x :: insertByIdDesc d xs

/-- Sort documents by _id descending, embedding sort with direction -1. -/
def sortByIdDesc : List OrderDoc → List OrderDoc
  | [] => []
  | x :: xs => insertByIdDesc x (sortByIdDesc xs)

/-- Embeds list_orders of the order-service: every document, sorted by _id
descending, serialized. -/
def list_orders (s : OrderStore) : List OrderOut :=
  (sortByIdDesc s.docs).map serialize_order

/-! ### Concrete fixtures used by witnesses -/

/-- A user with an ObjectId-shaped identifier, as the directory assigns. -/
def user1 : User := ⟨"0123456789abcdef01234567", "Ann", "ann@x.com"⟩

/-- A one-user directory collection. -/
def users1 : List User := [user1]

/-- The empty, well-formed order store. -/
def store0 : OrderStore := ⟨0, []⟩

/-- A valid line item. -/
def item1 : OrderItem := ⟨"WIDGET", 2⟩

/-- A structurally valid request naming the existing user. -/
def rawOk : OrderCreate := ⟨"0123456789abcdef01234567", [item1], 20⟩

/-- A structurally valid request whose identifier is not ObjectId-shaped. -/
def rawBadId : OrderCreate := ⟨"u1", [item1], 5⟩

/-- A structurally invalid request: empty item list. -/
def rawInvalid : OrderCreate := ⟨"u1", [], 5⟩

/-- A directory whose network link is down: every request fails. -/
def dirFail : String → NetResult := fun _ => NetResult.requestError

/-- A directory answering 500 to everything. -/
def dir500 : String → NetResult := fun _ => NetResult.response 500 ⟨"", "", ""⟩

/-- A directory answering 404 to everything. -/
def dir404 : String → NetResult := fun _ => NetResult.response 404 ⟨"", "", ""⟩

/-- A directory answering 200 with user1 to everything. -/
def dir200 : String → NetResult := fun _ => NetResult.response 200 user1

/-! ### Helper lemmas -/

/-- The Gate issues exactly one directory lookup per call. -/
theorem fetch_user_calls_eq (dir : String → NetResult) (uid : String) :
    (fetch_user dir uid).calls = [uid] := rfl

/-- Case analysis of the user-service lookup. -/
theorem get_user_cases (users : List User) (uid : String) :
    (isObjectIdString uid = false ∧ get_user users uid = (400, none)) ∨
    (isObjectIdString uid = true ∧ get_user users uid = (404, none)) ∨
    (∃ u, isObjectIdString uid = true ∧ get_user users uid = (200, some u)) := by
  by_cases hid : isObjectIdString uid
  · cases hfind : users.find? (fun u => u.id == uid) with
    | none => exact Or.inr (Or.inl ⟨hid, by simp [get_user, hid, hfind]⟩)
    | some u => exact Or.inr (Or.inr ⟨u, hid, by simp [get_user, hid, hfind]⟩)
  · exact Or.inl ⟨by simp [hid], by simp [get_user, hid]⟩

/-- A Found outcome against the deployed user-service forces the identifier
to be ObjectId-shaped. -/
theorem found_imp_objectid (users : List User) (uid : String) (u : User)
    (h : (fetch_user (directoryOf users) uid).res = Except.ok (some u)) :
    isObjectIdString uid = true := by
  rcases get_user_cases users uid with ⟨hid, hgu⟩ | ⟨hid, hgu⟩ | ⟨v, hid, hgu⟩
  · simp [fetch_user, directoryOf, hgu] at h
  · simp [fetch_user, directoryOf, hgu] at h
  · exact hid

/-- Workflow shape when the Gate raises: the exception propagates and the
store is untouched. -/
theorem create_order_gate_error (dir : String → NetResult) (now : Nat)
    (store : OrderStore) (p : OrderCreate) (e : HttpError)
    (hres : (fetch_user dir p.user_id).res = Except.error e) :
    create_order dir now store p = ⟨Except.error e, store, [p.user_id]⟩ := by
  simp only [create_order, fetch_user_calls_eq, hres]

/-- Workflow shape when the Gate reports the user absent. -/
theorem create_order_gate_none (dir : String → NetResult) (now : Nat)
    (store : OrderStore) (p : OrderCreate)
    (hres : (fetch_user dir p.user_id).res = Except.ok none) :
    create_order dir now store p =
      ⟨Except.error ⟨400, "Cannot create order: user not found"⟩, store, [p.user_id]⟩ := by
  simp only [create_order, fetch_user_calls_eq, hres]

/-- Workflow shape when the Gate found the user but the identifier fails
the ObjectId re-parse. -/
theorem create_order_gate_badid (dir : String → NetResult) (now : Nat)
    (store : OrderStore) (p : OrderCreate) (u : User)
    (hres : (fetch_user dir p.user_id).res = Except.ok (some u))
    (hid : isObjectIdString p.user_id = false) :
    create_order dir now store p =
      ⟨Except.error ⟨400, "Invalid user id"⟩, store, [p.user_id]⟩ := by
  simp only [create_order, fetch_user_calls_eq, hres, hid]
  simp

/-- In a list all of whose ids differ from n, appending a doc with id n and
searching for n finds exactly the appended doc. -/
theorem find_fresh (l : List OrderDoc) (n : Nat) (d : OrderDoc)
    (h : ∀ x ∈ l, x.oid ≠ n) (hd : d.oid = n) :
    (l ++ [d]).find? (fun x => x.oid == n) = some d := by
  induction l with
  | nil => simp [List.find?, hd]
  | cons x xs ih =>
    have hx : (x.oid == n) = false := by
      simp only [beq_eq_false_iff_ne, ne_eq]
      exact h x (by simp)
    simp only [List.cons_append, List.find?_cons, hx]
    exact ih (fun y hy => h y (by simp [hy]))

/-- Workflow shape of a successful admission: the Gate found the user, the
identifier re-parses, the fresh document is inserted and read back. -/
theorem create_order_found (dir : String → NetResult) (now : Nat)
    (store : OrderStore) (p : OrderCreate) (u : User)
    (hres : (fetch_user dir p.user_id).res = Except.ok (some u))
    (hid : isObjectIdString p.user_id = true)
    (hwf : store.wfb = true) :
    create_order dir now store p =
      ⟨Except.ok (serialize_order ⟨store.nextId, p.user_id, p.items, p.total, now⟩),
       ⟨store.nextId + 1, store.docs ++ [⟨store.nextId, p.user_id, p.items, p.total, now⟩]⟩,
       [p.user_id]⟩ := by
  have hfresh : ∀ x ∈ store.docs, x.oid ≠ store.nextId := by
    intro x hx
    have := (List.all_eq_true.mp hwf) x hx
    exact Nat.ne_of_lt (of_decide_eq_true this)
  have hfind :
      OrderStore.find_one
        ⟨store.nextId + 1,
         store.docs ++ [⟨store.nextId, p.user_id, p.items, p.total, now⟩]⟩
        store.nextId =
        some ⟨store.nextId, p.user_id, p.items, p.total, now⟩ :=
    find_fresh store.docs store.nextId _ hfresh rfl
  simp only [create_order, fetch_user_calls_eq, hres, hid, if_true, hfind]

/-! ### Claim theorems -/

/-- C1: the User Validation Gate classifies every lookup into exactly one
of four mutually exclusive outcomes: a failed network request yields the
503 DependencyUnreachable exception, a 404 directory answer yields the
NotFound result, any other non-200 directory status yields the 502
DependencyMalfunction exception, and a 200 answer yields Found with the
user record; the four input classes characterize the four outcomes. -/
theorem fetch_user_four_way (dir : String → NetResult) (uid : String) :
    ((fetch_user dir uid).res = Except.error ⟨503, "User service unavailable"⟩ ↔
       dir uid = NetResult.requestError)
  ∧ ((fetch_user dir uid).res = Except.ok none ↔
       ∃ b, dir uid = NetResult.response 404 b)
  ∧ ((fetch_user dir uid).res = Except.error ⟨502, "User validation failed"⟩ ↔
       ∃ s b, dir uid = NetResult.response s b ∧ s ≠ 404 ∧ s ≠ 200)
  ∧ (∀ u, ((fetch_user dir uid).res = Except.ok (some u) ↔
       dir uid = NetResult.response 200 u)) := by
  cases hdu : dir uid with
  | requestError => simp [fetch_user, hdu]
  | response s b =>
    by_cases h4 : s = 404
    · subst h4
      simp [fetch_user, hdu]
    · by_cases h2 : s = 200
      · subst h2
        simp [fetch_user, hdu]
      · simp [fetch_user, hdu, h4, h2]

/-- C2: an order document is inserted only if the Gate returned Found for
the request identifier; on a Gate exception (unreachable or malfunction)
the exception propagates unchanged, on a NotFound answer the 400
user-not-found error is returned, and in all three cases the Order Store
is left exactly as it was. -/
theorem order_persisted_only_if_found (dir : String → NetResult) (now : Nat)
    (store : OrderStore) (raw : OrderCreate) :
    ((post_orders dir now store raw).store ≠ store →
        ∃ u, (fetch_user dir raw.user_id).res = Except.ok (some u))
  ∧ (∀ e, (fetch_user dir raw.user_id).res = Except.error e → raw.valid = true →
        (post_orders dir now store raw).res = Except.error e ∧
        (post_orders dir now store raw).store = store)
  ∧ ((fetch_user dir raw.user_id).res = Except.ok none → raw.valid = true →
        (post_orders dir now store raw).res =
          Except.error ⟨400, "Cannot create order: user not found"⟩ ∧
        (post_orders dir now store raw).store = store) := by
  refine ⟨?_, ?_, ?_⟩
  · intro hne
    by_cases hval : raw.valid
    · cases hres : (fetch_user dir raw.user_id).res with
      | error e =>
        exact absurd (by simp [post_orders, hval, create_order_gate_error dir now store raw e hres]) hne
      | ok o =>
        cases o with
        | none =>
          exact absurd (by simp [post_orders, hval, create_order_gate_none dir now store raw hres]) hne
        | some u => exact ⟨u, rfl⟩
    · exact absurd (by simp [post_orders, hval]) hne
  · intro e hres hval
    simp [post_orders, hval, create_order_gate_error dir now store raw e hres]
  · intro hres hval
    simp [post_orders, hval, create_order_gate_none dir now store raw hres]

/-- C2 witness: with an unreachable directory and a valid request the 503
exception propagates and the store is unchanged. -/
theorem order_persisted_only_if_found_witness :
    (post_orders dirFail 7 store0 rawOk).res =
      Except.error ⟨503, "User service unavailable"⟩ ∧
    (post_orders dirFail 7 store0 rawOk).store = store0 :=
  (order_persisted_only_if_found dirFail 7 store0 rawOk).2.1
    ⟨503, "User service unavailable"⟩ rfl (by decide)

/-- C3: for a structurally valid request whose user the deployed directory
reports Found, POST /orders materializes a document whose items, total and
user identifier are copied verbatim from the input, whose id is the next
store-assigned identifier, whose timestamp is the instant sampled during
the call (hence between call-start and call-return), appends exactly that
document to the store, and answers with the serialization of the persisted
document. -/
theorem place_order_success (users : List User) (start now ret : Nat)
    (store : OrderStore) (raw : OrderCreate) (u : User)
    (hwf : store.wfb = true) (hval : raw.valid = true)
    (hfound : (fetch_user (directoryOf users) raw.user_id).res = Except.ok (some u))
    (h1 : start ≤ now) (h2 : now ≤ ret) :
    ∃ doc : OrderDoc,
      (post_orders (directoryOf users) now store raw).res =
        Except.ok (serialize_order doc) ∧
      (post_orders (directoryOf users) now store raw).store.docs =
        store.docs ++ [doc] ∧
      doc.items = raw.items ∧ doc.total = raw.total ∧
      doc.user_id = raw.user_id ∧ doc.oid = store.nextId ∧
      start ≤ doc.created_at ∧ doc.created_at ≤ ret := by
  have hid : isObjectIdString raw.user_id = true :=
    found_imp_objectid users raw.user_id u hfound
  have hco := create_order_found (directoryOf users) now store raw u hfound hid hwf
  refine ⟨⟨store.nextId, raw.user_id, raw.items, raw.total, now⟩, ?_, ?_, rfl, rfl, rfl, rfl, h1, h2⟩
  · simp [post_orders, hval, hco]
  · simp [post_orders, hval, hco]

/-- C3 witness: the concrete scenario of the spec, rendered at whole-number
total: the valid request naming the stored user is admitted, its document
appended to the empty store with id 0 and the sampled instant 5. -/
theorem place_order_success_witness :
    ∃ doc : OrderDoc,
      (post_orders (directoryOf users1) 5 store0 rawOk).res =
        Except.ok (serialize_order doc) ∧
      (post_orders (directoryOf users1) 5 store0 rawOk).store.docs =
        store0.docs ++ [doc] ∧
      doc.items = rawOk.items ∧ doc.total = rawOk.total ∧
      doc.user_id = rawOk.user_id ∧ doc.oid = store0.nextId ∧
      4 ≤ doc.created_at ∧ doc.created_at ≤ 6 :=
  place_order_success users1 4 5 6 store0 rawOk user1 (by decide) (by decide)
    (by decide) (by decide) (by decide)

/-- C4: a structurally invalid request body is rejected by the pydantic
model validation before the endpoint body runs: the response is the
request-validation InvalidInput rejection, the store is untouched and the
list of User Directory lookups performed by the request is empty. -/
theorem invalid_input_no_dependency_call (dir : String → NetResult) (now : Nat)
    (store : OrderStore) (raw : OrderCreate) (h : raw.valid = false) :
    post_orders dir now store raw =
      ⟨Except.error ⟨422, "Unprocessable Entity"⟩, store, []⟩ := by
  simp [post_orders, h]

/-- C4 witness: a request with an empty item list is rejected with no
directory lookup and no store change. -/
theorem invalid_input_no_dependency_call_witness :
    post_orders dirFail 0 store0 rawInvalid =
      ⟨Except.error ⟨422, "Unprocessable Entity"⟩, store0, []⟩ :=
  invalid_input_no_dependency_call dirFail 0 store0 rawInvalid (by decide)

/-- C5 counterexample: the request with an empty item list is structurally
invalid, yet the response status is 422 (the FastAPI request-validation
status), not the 400 the claim asserts. -/
theorem structurally_invalid_not_400 :
    rawInvalid.valid = false ∧
    resultStatus (post_orders dirFail 0 store0 rawInvalid).res = 422 ∧
    resultStatus (post_orders dirFail 0 store0 rawInvalid).res ≠ 400 := by
  refine ⟨by decide, rfl, by decide⟩

/-- C5 amended: for every structurally invalid POST /orders request body
the order service responds with HTTP status 422 (the FastAPI request
validation rejection), which differs from the 400 used when the referenced
user does not exist. -/
theorem structurally_invalid_status_422 (dir : String → NetResult) (now : Nat)
    (store : OrderStore) (raw : OrderCreate) (h : raw.valid = false) :
    resultStatus (post_orders dir now store raw).res = 422 := by
  simp [post_orders, h, resultStatus]

/-- C5 amended witness: the empty-item-list request is answered 422. -/
theorem structurally_invalid_status_422_witness :
    resultStatus (post_orders dir500 1 store0 rawInvalid).res = 422 :=
  structurally_invalid_status_422 dir500 1 store0 rawInvalid (by decide)

/-- C6: when the directory reports the user absent for a structurally
valid request, POST /orders answers the 400 user-not-found error, persists
nothing, and that response differs from the response any structurally
invalid request receives. -/
theorem user_not_found_rejected (dir : String → NetResult) (now : Nat)
    (store : OrderStore) (raw : OrderCreate)
    (hval : raw.valid = true)
    (hnf : (fetch_user dir raw.user_id).res = Except.ok none) :
    (post_orders dir now store raw).res =
      Except.error ⟨400, "Cannot create order: user not found"⟩ ∧
    (post_orders dir now store raw).store = store ∧
    ∀ raw2 : OrderCreate, raw2.valid = false →
      (post_orders dir now store raw2).res ≠ (post_orders dir now store raw).res := by
  have hco := create_order_gate_none dir now store raw hnf
  refine ⟨by simp [post_orders, hval, hco], by simp [post_orders, hval, hco], ?_⟩
  intro raw2 h2
  simp [post_orders, hval, h2, hco]

/-- C6 witness: against the all-404 directory the valid request is refused
with the 400 user-not-found error, the store is unchanged, and the
response differs from the one the empty-item-list request receives. -/
theorem user_not_found_rejected_witness :
    (post_orders dir404 3 store0 rawOk).res =
      Except.error ⟨400, "Cannot create order: user not found"⟩ ∧
    (post_orders dir404 3 store0 rawOk).store = store0 ∧
    (post_orders dir404 3 store0 rawInvalid).res ≠ (post_orders dir404 3 store0 rawOk).res := by
  have h := user_not_found_rejected dir404 3 store0 rawOk (by decide) rfl
  exact ⟨h.1, h.2.1, h.2.2 rawInvalid (by decide)⟩

/-- C7: a structurally valid request whose non-empty identifier is not
ObjectId-shaped is not special-cased locally: the identifier is sent to
the Gate (exactly one directory lookup), the deployed user-service answers
400 for it, so the Gate classifies the outcome as DependencyMalfunction
(surfaced 502), the outcome is never Found, and nothing is persisted. -/
theorem malformed_id_passed_to_gate (users : List User) (now : Nat)
    (store : OrderStore) (raw : OrderCreate)
    (hval : raw.valid = true)
    (hmal : isObjectIdString raw.user_id = false) :
    (post_orders (directoryOf users) now store raw).calls = [raw.user_id] ∧
    (post_orders (directoryOf users) now store raw).res =
      Except.error ⟨502, "User validation failed"⟩ ∧
    (∀ u : User, (fetch_user (directoryOf users) raw.user_id).res ≠ Except.ok (some u)) ∧
    (post_orders (directoryOf users) now store raw).store = store := by
  have hgu : get_user users raw.user_id = (400, none) := by
    simp [get_user, hmal]
  have hres : (fetch_user (directoryOf users) raw.user_id).res =
      Except.error ⟨502, "User validation failed"⟩ := by
    simp [fetch_user, directoryOf, hgu]
  have hco := create_order_gate_error (directoryOf users) now store raw
    ⟨502, "User validation failed"⟩ hres
  refine ⟨by simp [post_orders, hval, hco], by simp [post_orders, hval, hco], ?_,
    by simp [post_orders, hval, hco]⟩
  intro u hu
  rw [hres] at hu
  exact absurd hu (by simp)

/-- C7 witness: the valid request carrying the identifier u1 goes to the
Gate once, is answered 502, is never Found and persists nothing. -/
theorem malformed_id_passed_to_gate_witness :
    (post_orders (directoryOf users1) 2 store0 rawBadId).calls = [rawBadId.user_id] ∧
    (post_orders (directoryOf users1) 2 store0 rawBadId).res =
      Except.error ⟨502, "User validation failed"⟩ ∧
    (∀ u : User, (fetch_user (directoryOf users1) rawBadId.user_id).res ≠ Except.ok (some u)) ∧
    (post_orders (directoryOf users1) 2 store0 rawBadId).store = store0 :=
  malformed_id_passed_to_gate users1 2 store0 rawBadId (by decide) (by decide)

/-- Inserting a document whose id is below every id of a descending list
appends it at the end. -/
theorem insertByIdDesc_min (d : OrderDoc) (l : List OrderDoc)
    (h : ∀ x ∈ l, d.oid < x.oid) : insertByIdDesc d l = l ++ [d] := by
  induction l with
  | nil => rfl
  | cons x xs ih =>
    have hx : ¬ (x.oid ≤ d.oid) := Nat.not_le_of_lt (h x (by simp))
    simp only [insertByIdDesc, if_neg hx, List.cons_append]
    rw [ih (fun y hy => h y (by simp [hy]))]

/-- Sorting by id descending reverses a list whose ids strictly increase. -/
theorem sortByIdDesc_of_increasing (l : List OrderDoc)
    (h : List.Pairwise (fun a b => a.oid < b.oid) l) :
    sortByIdDesc l = l.reverse := by
  induction l with
  | nil => rfl
  | cons x xs ih =>
    rcases List.pairwise_cons.mp h with ⟨hx, hxs⟩
    simp only [sortByIdDesc, ih hxs, List.reverse_cons]
    exact insertByIdDesc_min x xs.reverse
      (fun y hy => hx y (List.mem_reverse.mp hy))

/-- C8: on a store whose documents carry strictly increasing identifiers
(as consecutive inserts assign them), GET /orders returns the
serialization of every persisted document, unfiltered and unmutated, in
reverse insertion order: most recently created first. -/
theorem list_orders_reverse_insertion (s : OrderStore)
    (h : List.Pairwise (fun a b => a.oid < b.oid) s.docs) :
    list_orders s = (s.docs.map serialize_order).reverse := by
  rw [list_orders, sortByIdDesc_of_increasing s.docs h, List.map_reverse]

/-- Fixture: document A, inserted first (id 0, instant 1). -/
def docA : OrderDoc := ⟨0, "0123456789abcdef01234567", [item1], 20, 1⟩

/-- Fixture: document B, inserted second (id 1, instant 2). -/
def docB : OrderDoc := ⟨1, "0123456789abcdef01234567", [item1], 20, 2⟩

/-- C8 witness: after inserting A then B, the listing is [B, A]. -/
theorem list_orders_reverse_insertion_witness :
    list_orders ⟨2, [docA, docB]⟩ =
      [serialize_order docB, serialize_order docA] :=
  list_orders_reverse_insertion ⟨2, [docA, docB]⟩ (by
    constructor
    · intro b hb
      rw [List.mem_singleton.mp hb]
      decide
    · simp)

/-- C9: the Gate is deterministic and idempotent against an unchanged
directory: two successive validate calls for the same existing identifier
both yield Found with identical user data, and each of the two calls sends
exactly the one lookup to the directory, with no caching and no retry. -/
theorem gate_idempotent (dir : String → NetResult) (uid : String) (u : User)
    (h : (fetch_user dir uid).res = Except.ok (some u)) :
    validate_twice dir uid =
      (⟨Except.ok (some u), [uid]⟩, ⟨Except.ok (some u), [uid]⟩) := by
  have he : fetch_user dir uid = ⟨(fetch_user dir uid).res, [uid]⟩ := rfl
  calc validate_twice dir uid = (fetch_user dir uid, fetch_user dir uid) := rfl
    _ = (⟨Except.ok (some u), [uid]⟩, ⟨Except.ok (some u), [uid]⟩) := by rw [he, h]

/-- C9 witness: against the directory that answers 200 with user1, both
calls yield Found user1 and each issues one lookup. -/
theorem gate_idempotent_witness :
    validate_twice dir200 "0123456789abcdef01234567" =
      (⟨Except.ok (some user1), ["0123456789abcdef01234567"]⟩,
       ⟨Except.ok (some user1), ["0123456789abcdef01234567"]⟩) :=
  gate_idempotent dir200 "0123456789abcdef01234567" user1 rfl

/-- The only exceptions the Gate raises are the 503 unreachable and the
502 malfunction ones. -/
theorem fetch_user_error_shape (dir : String → NetResult) (uid : String) (e : HttpError)
    (h : (fetch_user dir uid).res = Except.error e) :
    e = ⟨503, "User service unavailable"⟩ ∨ e = ⟨502, "User validation failed"⟩ := by
  cases hdu : dir uid with
  | requestError =>
    simp [fetch_user, hdu] at h
    exact Or.inl h.symm
  | response s b =>
    by_cases h4 : s = 404
    · simp [fetch_user, hdu, h4] at h
    · by_cases h2 : s = 200
      · simp [fetch_user, hdu, h4, h2] at h
      · simp [fetch_user, hdu, h4, h2] at h
        exact Or.inr h.symm

/-- C10: the post-Gate ObjectId re-parse in create_order is dead code
against the deployed user-service: the 400 Invalid-user-id response is
unreachable for every directory content, instant, store and payload,
because a Found outcome forces the identifier to have parsed as an
ObjectId at the user-service already. -/
theorem invalid_user_id_branch_dead (users : List User) (now : Nat)
    (store : OrderStore) (payload : OrderCreate) :
    (create_order (directoryOf users) now store payload).res ≠
      Except.error ⟨400, "Invalid user id"⟩ := by
  cases hres : (fetch_user (directoryOf users) payload.user_id).res with
  | error e =>
    rw [create_order_gate_error (directoryOf users) now store payload e hres]
    rcases fetch_user_error_shape (directoryOf users) payload.user_id e hres with he | he <;>
      simp [he]
  | ok o =>
    cases o with
    | none =>
      rw [create_order_gate_none (directoryOf users) now store payload hres]
      simp
    | some u =>
      have hid := found_imp_objectid users payload.user_id u hres
      simp only [create_order, fetch_user_calls_eq, hres, hid, if_true]
      split <;> simp
